import Mathlib

/-!
Shallow embedding of the BitTask local-first data layer: the entity store
(tasks, boards, subtasks, attachments), the offline mutation queue, the
conflict reconciler, and the domain services that mutate the store and
enqueue operations.

Sources embedded:
- `src/unnamed/part_014` (task service: getNextSequentialId, createTask,
  updateTask, toggleTaskComplete, deleteTask, queueOfflineOp)
- `src/src/services/boardService.ts` (deleteBoard)
- `src/src/services/subtaskService.ts` (deleteSubtask, deleteSubtasksByTaskId)
- `src/src/services/fileService.ts` (validateFile, getAttachmentType,
  createAttachment, createLinkAttachment, deleteAttachment)
- `src/src/hooks/useOfflineQueue.ts` (markSynced, markFailed, cleanupSynced,
  getReadyForSync, reconcileConflict)

Timestamps (`Date` / `getTime()`) are modelled as `Nat` milliseconds.
Dexie tables are modelled as Lean lists kept in primary-key (insertion)
order, with the auto-increment counter made explicit in the store state.
IndexedDB encodes the boolean `synced` flag as 0/1 in index queries
(`where('synced').equals(0)`); the model reads this back as `synced = false`.
Wall-clock reads (`new Date()`) and fresh client ids (`generateId()`) are
external inputs, so they appear as explicit parameters of each operation.
-/

namespace BitTask

/-- Priority enum of a task (`'low' | 'medium' | 'high'`). -/
inductive TaskPriority where
  | low
  | medium
  | high
deriving DecidableEq, Repr

/-- Task record (src/unnamed/part_003). The store-assigned `id` is kept in a
separate field; `TaskData` is the record without it (`Omit<Task, 'id'>`),
which is what `createTask` builds before `db.tasks.add` assigns the key. -/
structure TaskData where
  sequentialId : Nat
  boardId : Nat
  title : String
  description : Option String
  tags : List String
  priority : TaskPriority
  completed : Bool
  createdAt : Nat
  updatedAt : Nat
deriving DecidableEq, Repr

/-- Task as stored: primary key plus the record fields. -/
structure Task where
  id : Nat
  data : TaskData
deriving DecidableEq, Repr

/-- Input of `createTask`: `Omit<Task, 'id' | 'sequentialId' | 'createdAt' | 'updatedAt'>`. -/
structure TaskCreateInput where
  boardId : Nat
  title : String
  description : Option String
  tags : List String
  priority : TaskPriority
  completed : Bool
deriving DecidableEq, Repr

/-- Input of `updateTask`: `Partial<Omit<Task, 'id' | 'sequentialId' | 'createdAt'>>`.
A `some` field is present in the partial and overrides the stored value on
merge; `none` means the key is absent. -/
structure TaskUpdateInput where
  boardId : Option Nat := none
  title : Option String := none
  description : Option (Option String) := none
  tags : Option (List String) := none
  priority : Option TaskPriority := none
  completed : Option Bool := none
  updatedAt : Option Nat := none
deriving DecidableEq, Repr

/-- Board record (src/unnamed/part_003). -/
structure Board where
  id : Nat
  name : String
  order : Nat
  createdAt : Nat
  updatedAt : Nat
deriving DecidableEq, Repr

/-- Subtask record (src/unnamed/part_003). -/
structure Subtask where
  id : Nat
  taskId : Nat
  title : String
  completed : Bool
  order : Nat
  createdAt : Nat
  updatedAt : Nat
deriving DecidableEq, Repr

/-- Attachment type enum (`'image' | 'audio' | 'pdf' | 'link'`). -/
inductive AttachmentType where
  | image
  | audio
  | pdf
  | link
deriving DecidableEq, Repr

/-- Attachment metadata is opaque to the claims; modelled as a tag. -/
structure AttachmentMetadata where
  tag : String
deriving DecidableEq, Repr

/-- Attachment record (src/unnamed/part_003). Binary payloads (`blob`,
`thumbnailBlob`) are modelled by their byte sizes, the only observable the
embedded services read from them (`blob.size`). -/
structure Attachment where
  id : Nat
  taskId : Nat
  type : AttachmentType
  filename : String
  mimeType : String
  size : Nat
  blobSize : Option Nat
  url : Option String
  metadata : Option AttachmentMetadata
  thumbnailBlobSize : Option Nat
  createdAt : Nat
deriving DecidableEq, Repr

/-- Operation type of a queue entry (`'create' | 'update' | 'delete'`). -/
inductive OpType where
  | create
  | update
  | delete
deriving DecidableEq, Repr

/-- Entity discriminator of a queue entry (`'task' | 'attachment'`). -/
inductive OpEntity where
  | task
  | attachment
deriving DecidableEq, Repr

/-- Payload shape actually stored in `offlineOps.payload` (an `unknown` blob
in the source): the full task record minus the store-assigned id for task
creates, the update delta for task updates, the summary object
`{ taskId, filename, type, size }` for attachment creates, and null for
deletes. -/
inductive OpPayload where
  | taskRecord (data : TaskData)
  | taskDelta (updates : TaskUpdateInput)
  | attachmentInfo (taskId : Nat) (filename : String) (type : AttachmentType) (size : Nat)
  | null
deriving DecidableEq, Repr

/-- Offline queue entry (src/unnamed/part_003 `OfflineOp`). -/
structure OfflineOp where
  id : Nat
  opId : String
  opType : OpType
  entity : OpEntity
  entityId : Nat
  payload : OpPayload
  timestamp : Nat
  synced : Bool
  retryCount : Nat
  lastError : Option String := none
deriving DecidableEq, Repr

/-- The embedded database: one list per table in primary-key (insertion)
order, plus the auto-increment counters Dexie keeps per table. -/
structure DB where
  tasks : List Task
  boards : List Board
  subtasks : List Subtask
  attachments : List Attachment
  offlineOps : List OfflineOp
  nextTaskId : Nat
  nextBoardId : Nat
  nextSubtaskId : Nat
  nextAttachmentId : Nat
  nextOpPk : Nat
deriving DecidableEq, Repr

/-- Empty store with counters starting at 1 (Dexie auto-increment keys). -/
def DB.empty : DB :=
  { tasks := [], boards := [], subtasks := [], attachments := [],
    offlineOps := [], nextTaskId := 1, nextBoardId := 1, nextSubtaskId := 1,
    nextAttachmentId := 1, nextOpPk := 1 }

/-- queueOfflineOp (src/unnamed/part_014, lines 176-192): appends one entry
with `synced := false`, `retryCount := 0`. The fresh `opId` (from
`generateId()`) and the wall-clock `timestamp` (`new Date()`) are inputs. -/
def queueOfflineOp (opId : String) (opType : OpType) (entity : OpEntity)
    (entityId : Nat) (payload : OpPayload) (ts : Nat) (db : DB) : DB :=
  { db with
    offlineOps := db.offlineOps ++
      [{ id := db.nextOpPk, opId := opId, opType := opType, entity := entity,
         entityId := entityId, payload := payload, timestamp := ts,
         synced := false, retryCount := 0, lastError := none }],
    nextOpPk := db.nextOpPk + 1 }

/-- db.tasks.get(id). -/
def getTask (id : Nat) (db : DB) : Option Task :=
  db.tasks.find? (fun t => t.id = id)

/-- getNextSequentialId (src/unnamed/part_014, lines 13-16):
`db.tasks.orderBy('sequentialId').last()` yields the task holding the
maximum `sequentialId` among the tasks currently stored; the result is
`(last?.sequentialId ?? 0) + 1`. -/
def getNextSequentialId (db : DB) : Nat :=
  (db.tasks.foldl (fun acc t => max acc t.data.sequentialId) 0) + 1

/-- createTask (src/unnamed/part_014): builds the record with the next
sequential id and `createdAt = updatedAt = now`, adds it (assigning the
primary key), then enqueues OfflineOp(create, task, id, record).
`opTs` is the wall clock read inside `queueOfflineOp`. -/
def createTask (input : TaskCreateInput) (now : Nat) (opId : String)
    (opTs : Nat) (db : DB) : Task × DB :=
  let data : TaskData :=
    { sequentialId := getNextSequentialId db, boardId := input.boardId,
      title := input.title, description := input.description,
      tags := input.tags, priority := input.priority,
      completed := input.completed, createdAt := now, updatedAt := now }
  let id := db.nextTaskId
  let db1 := { db with tasks := db.tasks ++ [{ id := id, data := data }],
                       nextTaskId := db.nextTaskId + 1 }
  let db2 := queueOfflineOp opId OpType.create OpEntity.task id
      (OpPayload.taskRecord data) opTs db1
  ({ id := id, data := data }, db2)

/-- Spread merge `{ ...task, ...updates }`: each key present in the partial
overrides the stored field. -/
def applyTaskUpdates (d : TaskData) (u : TaskUpdateInput) : TaskData :=
  { d with
    boardId := u.boardId.getD d.boardId,
    title := u.title.getD d.title,
    description := u.description.getD d.description,
    tags := u.tags.getD d.tags,
    priority := u.priority.getD d.priority,
    completed := u.completed.getD d.completed,
    updatedAt := u.updatedAt.getD d.updatedAt }

/-- db.tasks.put(t): replace the row with the same primary key. -/
def putTask (t : Task) (db : DB) : DB :=
  { db with tasks := db.tasks.map (fun t0 => if t0.id = t.id then t else t0) }

/-- updateTask (src/unnamed/part_014, lines 108-124): undefined when the id
is absent; otherwise merges the partial, stamps `updatedAt := now`, puts the
row, and enqueues OfflineOp(update, task, id, delta) — the payload is the
partial, not the merged record. -/
def updateTask (id : Nat) (updates : TaskUpdateInput) (now : Nat)
    (opId : String) (opTs : Nat) (db : DB) : Option Task × DB :=
  match getTask id db with
  | none => (none, db)
  | some t =>
    let updated : Task :=
      { id := t.id, data := { applyTaskUpdates t.data updates with updatedAt := now } }
    let db1 := putTask updated db
    let db2 := queueOfflineOp opId OpType.update OpEntity.task id
        (OpPayload.taskDelta updates) opTs db1
    (some updated, db2)

/-- toggleTaskComplete (src/unnamed/part_014): reads the task, flips
`completed`, and delegates to `updateTask`. -/
def toggleTaskComplete (id : Nat) (now : Nat) (opId : String) (opTs : Nat)
    (db : DB) : Option Task × DB :=
  match getTask id db with
  | none => (none, db)
  | some t =>
    updateTask id { completed := some (!t.data.completed) } now opId opTs db

/-- deleteTask (src/unnamed/part_014, lines 139-153): false when the id is
absent; otherwise deletes all attachments with `taskId = id`, deletes the
task, and enqueues OfflineOp(delete, task, id, null). Subtasks are not
touched. -/
def deleteTask (id : Nat) (opId : String) (opTs : Nat) (db : DB) : Bool × DB :=
  match getTask id db with
  | none => (false, db)
  | some _ =>
    let db1 := { db with
      attachments := db.attachments.filter (fun a => a.taskId ≠ id) }
    let db2 := { db1 with tasks := db1.tasks.filter (fun t => t.id ≠ id) }
    let db3 := queueOfflineOp opId OpType.delete OpEntity.task id
        OpPayload.null opTs db2
    (true, db3)

/-- markSynced (src/src/hooks/useOfflineQueue.ts): sets `synced := true` on
the entry with the given primary key. -/
def markSynced (id : Nat) (db : DB) : DB :=
  { db with offlineOps :=
      db.offlineOps.map fun op =>
        if op.id = id then { op with synced := true } else op }

/-- markFailed (src/src/hooks/useOfflineQueue.ts): when the entry exists,
records the error and bumps `retryCount`; `synced` is untouched. -/
def markFailed (id : Nat) (error : String) (db : DB) : DB :=
  match db.offlineOps.find? (fun op => op.id = id) with
  | none => db
  | some _ =>
    { db with offlineOps :=
        db.offlineOps.map fun op =>
          if op.id = id then
            { op with lastError := some error, retryCount := op.retryCount + 1 }
          else op }

/-- cleanupSynced (src/src/hooks/useOfflineQueue.ts): hard-deletes entries
with `synced = true` (`where('synced').equals(1)`), returning the count. -/
def cleanupSynced (db : DB) : Nat × DB :=
  ((db.offlineOps.filter (fun op => op.synced)).length,
   { db with offlineOps := db.offlineOps.filter (fun op => !op.synced) })

/-- getReadyForSync (src/src/hooks/useOfflineQueue.ts, lines 68-71): reads
the unsynced entries (`where('synced').equals(0).toArray()`, returned in
primary-key order) and keeps those with `retryCount < maxRetries`. No sort
is applied. -/
def getReadyForSync (maxRetries : Nat) (db : DB) : List OfflineOp :=
  (db.offlineOps.filter (fun op => !op.synced)).filter
    (fun op => op.retryCount < maxRetries)

/-- deleteSubtask (src/src/services/subtaskService.ts, lines 82-85):
`db.subtasks.delete(id)` (a no-op when the key is absent) followed by
`return true` — the result is `true` unconditionally. -/
def deleteSubtask (id : Nat) (db : DB) : Bool × DB :=
  (true, { db with subtasks := db.subtasks.filter (fun s => s.id ≠ id) })

/-- deleteSubtasksByTaskId (src/src/services/subtaskService.ts, lines 90-92):
deletes every subtask with matching `taskId`, returning the deleted count. -/
def deleteSubtasksByTaskId (taskId : Nat) (db : DB) : Nat × DB :=
  ((db.subtasks.filter (fun s => s.taskId = taskId)).length,
   { db with subtasks := db.subtasks.filter (fun s => s.taskId ≠ taskId) })

/-- Stable insertion step for sorting subtasks by their `order` field. -/
def insertByOrd (s : Subtask) : List Subtask → List Subtask
  | [] => [s]
  | t :: ts => if s.order < t.order then s :: t :: ts else t :: insertByOrd s ts

/-- Stable sort of subtasks ascending by `order` (Dexie `sortBy('order')`). -/
def sortByOrd : List Subtask → List Subtask
  | [] => []
  | s :: ss => insertByOrd s (sortByOrd ss)

/-- getSubtasksByTaskId (src/src/services/subtaskService.ts): subtasks of a
task, sorted by `order`. -/
def getSubtasksByTaskId (taskId : Nat) (db : DB) : List Subtask :=
  sortByOrd (db.subtasks.filter (fun s => s.taskId = taskId))

/-- getTaskAttachments (src/src/services/fileService.ts): attachments with
matching `taskId`. -/
def getTaskAttachments (taskId : Nat) (db : DB) : List Attachment :=
  db.attachments.filter (fun a => a.taskId = taskId)

/-- Dexie `db.boards.where('id').notEqual(id).first()`: the index walk
yields boards in ascending primary key, so this is the minimum-id board
whose id differs. -/
def firstOtherBoard (id : Nat) (db : DB) : Option Board :=
  (db.boards.filter (fun b => b.id ≠ id)).foldl
    (fun acc b =>
      match acc with
      | none => some b
      | some b0 => if b.id < b0.id then some b else some b0)
    none

/-- deleteBoard (src/src/services/boardService.ts, lines 89-111): false with
no writes when at most one board exists, when the id is absent, or when no
other board can be found; otherwise reassigns every task on this board to
the first other board, deletes the board, and returns true. The offline
queue is never touched. -/
def deleteBoard (id : Nat) (db : DB) : Bool × DB :=
  if db.boards.length ≤ 1 then (false, db)
  else
    match db.boards.find? (fun b => b.id = id) with
    | none => (false, db)
    | some _ =>
      match firstOtherBoard id db with
      | none => (false, db)
      | some otherBoard =>
        let db1 := { db with
          tasks := db.tasks.map fun (t : Task) =>
            if t.data.boardId = id then
              { t with data := { t.data with boardId := otherBoard.id } }
            else t }
        let db2 := { db1 with boards := db1.boards.filter (fun b => b.id ≠ id) }
        (true, db2)

/-- Allowed MIME types per attachment category
(src/src/services/fileService.ts `ALLOWED_MIME_TYPES`). -/
def ALLOWED_MIME_TYPES (t : AttachmentType) : List String :=
  match t with
  | AttachmentType.image => ["image/jpeg", "image/png", "image/gif", "image/webp"]
  | AttachmentType.audio => ["audio/mpeg", "audio/wav", "audio/ogg", "audio/webm", "audio/mp4"]
  | AttachmentType.pdf => ["application/pdf"]
  | AttachmentType.link => []

/-- Iteration order of `Object.entries(ALLOWED_MIME_TYPES)`. -/
def attachmentTypeEntries : List AttachmentType :=
  [AttachmentType.image, AttachmentType.audio, AttachmentType.pdf, AttachmentType.link]

/-- getAttachmentType (src/src/services/fileService.ts): first category
whose allow-list contains the MIME type, else null. -/
def getAttachmentType (mimeType : String) : Option AttachmentType :=
  attachmentTypeEntries.find? (fun t => (ALLOWED_MIME_TYPES t).contains mimeType)

/-- File handed to the validation and attachment functions; only `name`,
`type` (MIME) and `size` are read by the embedded code. -/
structure FileInfo where
  name : String
  mimeType : String
  size : Nat
deriving DecidableEq, Repr

/-- FileValidationResult (src/unnamed/part_003): `{ valid, error? }`. -/
structure FileValidationResult where
  valid : Bool
  error : Option String := none
deriving DecidableEq, Repr

/-- Default `maxSize` of `validateFile`: 20 * 1024 * 1024 bytes. -/
def DEFAULT_MAX_FILE_SIZE : Nat := 20 * 1024 * 1024

/-- `Math.round(maxSize / 1024 / 1024)` (round half up) on a byte count. -/
def roundToMegabytes (maxSize : Nat) : Nat :=
  (2 * maxSize + 1024 * 1024) / (2 * 1024 * 1024)

/-- validateFile (src/src/services/fileService.ts, lines 29-51): size check
against the configurable ceiling first, then MIME check against the
allow-list; both failures come back as a structured result with a
human-readable `error`, never as an exception. -/
def validateFile (file : FileInfo) (maxSize : Nat) : FileValidationResult :=
  if file.size > maxSize then
    { valid := false,
      error := some ("File size exceeds maximum allowed (" ++
        toString (roundToMegabytes maxSize) ++ "MB)") }
  else
    match getAttachmentType file.mimeType with
    | none => { valid := false, error := some "File type not supported" }
    | some _ => { valid := true, error := none }

/-- createAttachment (src/src/services/fileService.ts, lines 149-195):
throws `'Unsupported file type'` when the MIME type matches no category
(modelled as `Except.error`); performs no size check. For images with
`compress` on, the canvas pipeline replaces the blob and derives a
thumbnail — the resulting byte sizes are environment inputs
(`compressedSize`, `thumbSize`). Stores the attachment, then enqueues
OfflineOp(create, attachment, id, summary) stamped with the same `now`. -/
def createAttachment (taskId : Nat) (file : FileInfo) (compress : Bool)
    (compressedSize thumbSize : Nat) (now : Nat) (opId : String)
    (db : DB) : Except String (Attachment × DB) :=
  match getAttachmentType file.mimeType with
  | none => Except.error "Unsupported file type"
  | some type =>
    let compressed := type = AttachmentType.image ∧ compress = true
    let blobSize := if compressed then compressedSize else file.size
    let attachment : Attachment :=
      { id := db.nextAttachmentId, taskId := taskId, type := type,
        filename := file.name, mimeType := file.mimeType, size := blobSize,
        blobSize := some blobSize, url := none, metadata := none,
        thumbnailBlobSize := if compressed then some thumbSize else none,
        createdAt := now }
    let db1 := { db with attachments := db.attachments ++ [attachment],
                         nextAttachmentId := db.nextAttachmentId + 1 }
    let db2 := queueOfflineOp opId OpType.create OpEntity.attachment
        attachment.id
        (OpPayload.attachmentInfo taskId file.name type blobSize) now db1
    Except.ok (attachment, db2)

/-- createLinkAttachment (src/src/services/fileService.ts, lines 200-220):
stores a link-typed attachment (`mimeType 'text/uri-list'`, `size` the url
length) and returns it. No offline-queue write appears in this function. -/
def createLinkAttachment (taskId : Nat) (url : String)
    (metadata : Option AttachmentMetadata) (now : Nat) (db : DB) :
    Attachment × DB :=
  let attachment : Attachment :=
    { id := db.nextAttachmentId, taskId := taskId, type := AttachmentType.link,
      filename := url, mimeType := "text/uri-list", size := url.length,
      blobSize := none, url := some url, metadata := metadata,
      thumbnailBlobSize := none, createdAt := now }
  (attachment,
   { db with attachments := db.attachments ++ [attachment],
             nextAttachmentId := db.nextAttachmentId + 1 })

/-- deleteAttachment (src/src/services/fileService.ts, lines 239-258):
false when the id is absent; otherwise deletes the row and enqueues
OfflineOp(delete, attachment, id, null). -/
def deleteAttachment (id : Nat) (opId : String) (ts : Nat) (db : DB) :
    Bool × DB :=
  match db.attachments.find? (fun a => a.id = id) with
  | none => (false, db)
  | some _ =>
    let db1 := { db with attachments := db.attachments.filter (fun a => a.id ≠ id) }
    (true, queueOfflineOp opId OpType.delete OpEntity.attachment id
        OpPayload.null ts db1)

/-- Remote state passed to the reconciler: `{ updatedAt?: Date } | null`,
with `null` itself modelled by `Option RemoteState`. -/
structure RemoteState where
  updatedAt : Option Nat
deriving DecidableEq, Repr

/-- Winner chosen by the reconciler: `localWins` stands for the source's
string `'local'`, `remoteWins` for `'remote'`. -/
inductive ReconcileChoice where
  | localWins
  | remoteWins
deriving DecidableEq, Repr

/-- reconcileConflict (src/src/hooks/useOfflineQueue.ts, lines 89-111):
local wins when the remote is null or carries no `updatedAt`; otherwise
last-write-wins on `localOp.timestamp > remote.updatedAt`, ties to remote.
Pure function of its two arguments. -/
def reconcileConflict (localOp : OfflineOp) (remoteState : Option RemoteState) :
    ReconcileChoice :=
  match remoteState with
  | none => ReconcileChoice.localWins
  | some r =>
    match r.updatedAt with
    | none => ReconcileChoice.localWins
    | some remoteTime =>
      if localOp.timestamp > remoteTime then ReconcileChoice.localWins
      else ReconcileChoice.remoteWins

/-! Concrete fixtures used by witnesses and counterexamples. -/

/-- Sample queue entry with timestamp 5, for exercising the reconciler. -/
def opC3 : OfflineOp :=
  { id := 1, opId := "c3", opType := OpType.update, entity := OpEntity.task,
    entityId := 1, payload := OpPayload.null, timestamp := 5, synced := false,
    retryCount := 0, lastError := none }

/-- Store holding exactly one board. -/
def oneBoardDB : DB :=
  { DB.empty with
    boards := [{ id := 1, name := "Geral", order := 0, createdAt := 0, updatedAt := 0 }],
    nextBoardId := 2 }

/-- Queue reached by enqueueing at wall-clock 5 and then at wall-clock 3:
primary-key order disagrees with timestamp order. -/
def dbC6 : DB :=
  queueOfflineOp "b" OpType.create OpEntity.task 2 OpPayload.null 3
    (queueOfflineOp "a" OpType.create OpEntity.task 1 OpPayload.null 5 DB.empty)

/-- Queue reached by enqueueing at wall-clock 3 and then 5 (monotone clock). -/
def dbC6w : DB :=
  queueOfflineOp "b" OpType.create OpEntity.task 2 OpPayload.null 5
    (queueOfflineOp "a" OpType.create OpEntity.task 1 OpPayload.null 3 DB.empty)

/-- Minimal task-creation input. -/
def inputC1 : TaskCreateInput :=
  { boardId := 1, title := "t", description := none, tags := [],
    priority := TaskPriority.low, completed := false }

/-- Store after one createTask: task id 1, sequentialId 1. -/
def dbC1a : DB := (createTask inputC1 10 "c1a" 10 DB.empty).2

/-- Store after a second createTask: adds task id 2, sequentialId 2. -/
def dbC1b : DB := (createTask inputC1 20 "c1b" 20 dbC1a).2

/-- Store after deleting task 2, the holder of the maximum sequentialId. -/
def dbC1c : DB := (deleteTask 2 "c1c" 30 dbC1b).2

/-- Task with id 1, used as the parent of a subtask. -/
def taskC2 : Task :=
  { id := 1,
    data := { sequentialId := 1, boardId := 1, title := "t", description := none,
              tags := [], priority := TaskPriority.low, completed := false,
              createdAt := 0, updatedAt := 0 } }

/-- Subtask of task 1. -/
def subC2 : Subtask :=
  { id := 1, taskId := 1, title := "s", completed := false, order := 0,
    createdAt := 0, updatedAt := 0 }

/-- Store holding task 1 and its subtask. -/
def dbC2 : DB :=
  { DB.empty with tasks := [taskC2], subtasks := [subC2],
                  nextTaskId := 2, nextSubtaskId := 2 }

/-- Update delta setting only the title. -/
def updC9 : TaskUpdateInput := { title := some "renamed" }

/-- Task with id 1 and sequentialId 7 created at time 3. -/
def taskC9 : Task :=
  { id := 1,
    data := { sequentialId := 7, boardId := 1, title := "old", description := none,
              tags := ["a"], priority := TaskPriority.medium, completed := false,
              createdAt := 3, updatedAt := 3 } }

/-- Store holding just taskC9. -/
def dbC9 : DB := { DB.empty with tasks := [taskC9], nextTaskId := 2 }

/-- The task updateTask produces from taskC9 and updC9 at time 50. -/
def tC9r : Task :=
  { id := 1, data := { taskC9.data with title := "renamed", updatedAt := 50 } }

/-- The queue entry updateTask enqueues for updC9 at wall-clock 51. -/
def opC9 : OfflineOp :=
  { id := 1, opId := "op9", opType := OpType.update, entity := OpEntity.task,
    entityId := 1, payload := OpPayload.taskDelta updC9, timestamp := 51,
    synced := false, retryCount := 0, lastError := none }

/-- The store updateTask produces from dbC9 (queue entry stamped 51). -/
def dbC9r : DB :=
  { DB.empty with
    tasks := [tC9r], nextTaskId := 2,
    offlineOps := [opC9], nextOpPk := 2 }

/-- Task with id 1, not completed, for exercising delete and toggle. -/
def taskC4 : Task :=
  { id := 1,
    data := { sequentialId := 1, boardId := 1, title := "t4", description := none,
              tags := [], priority := TaskPriority.low, completed := false,
              createdAt := 0, updatedAt := 0 } }

/-- Store holding just taskC4. -/
def dbC4 : DB := { DB.empty with tasks := [taskC4], nextTaskId := 2 }

/-- PDF file small enough for every ceiling. -/
def fileC5 : FileInfo :=
  { name := "doc.pdf", mimeType := "application/pdf", size := 100 }

/-- The attachment createAttachment stores for fileC5 at time 7. -/
def attC5 : Attachment :=
  { id := 1, taskId := 1, type := AttachmentType.pdf, filename := "doc.pdf",
    mimeType := "application/pdf", size := 100, blobSize := some 100,
    url := none, metadata := none, thumbnailBlobSize := none, createdAt := 7 }

/-- The queue entry createAttachment enqueues for fileC5 at time 7. -/
def opC5 : OfflineOp :=
  { id := 1, opId := "op5", opType := OpType.create,
    entity := OpEntity.attachment, entityId := 1,
    payload := OpPayload.attachmentInfo 1 "doc.pdf" AttachmentType.pdf 100,
    timestamp := 7, synced := false, retryCount := 0, lastError := none }

/-- The store createAttachment produces from the empty store and fileC5. -/
def dbC5r : DB :=
  { DB.empty with
    attachments := [attC5], nextAttachmentId := 2,
    offlineOps := [opC5], nextOpPk := 2 }

/-- JPEG of 100 MiB: five times the default 20 MiB ceiling. -/
def fileBigC8 : FileInfo :=
  { name := "big.jpg", mimeType := "image/jpeg", size := 100 * 1024 * 1024 }

/-- Small file whose MIME type matches no category. -/
def fileBadC8 : FileInfo :=
  { name := "notes.txt", mimeType := "text/plain", size := 10 }

end BitTask

namespace BitTask

/-- C10: deleteSubtask returns true for every id, present or absent — it
never signals not-found — whereas deleteTask and deleteBoard return false
on an absent/sole target (shown on the empty store). -/
theorem C10_deleteSubtask_always_true :
    (∀ (id : Nat) (db : DB), (deleteSubtask id db).1 = true) ∧
    (deleteTask 1 "op" 0 DB.empty).1 = false ∧
    (deleteBoard 1 DB.empty).1 = false :=
  ⟨fun _ _ => rfl, rfl, rfl⟩

/-- C3: reconcileConflict returns local when the remote state is null or has
no updatedAt; with remote updatedAt T it returns local exactly when the
operation's timestamp exceeds T and remote when it is at most T, ties going
to remote. The function is a pure function of its two arguments in this
embedding, as in the source (no store access, no writes). -/
theorem C3_reconcileConflict_lastWriteWins (op : OfflineOp)
    (r : Option RemoteState) :
    (r = none → reconcileConflict op r = ReconcileChoice.localWins) ∧
    (r = some { updatedAt := none } →
      reconcileConflict op r = ReconcileChoice.localWins) ∧
    (∀ T, r = some { updatedAt := some T } →
      (op.timestamp > T → reconcileConflict op r = ReconcileChoice.localWins) ∧
      (op.timestamp ≤ T → reconcileConflict op r = ReconcileChoice.remoteWins)) := by
  refine ⟨?_, ?_, ?_⟩
  · rintro rfl
    rfl
  · rintro rfl
    rfl
  · rintro T rfl
    constructor
    · intro hgt
      simp [reconcileConflict, hgt]
    · intro hle
      simp [reconcileConflict, Nat.not_lt.mpr hle]

/-- C3 witness: at timestamp 5 against remote updatedAt 5 (the tie) the
reconciler chooses remote; against a null remote it chooses local. -/
theorem C3_reconcileConflict_witness :
    reconcileConflict opC3 (some { updatedAt := some 5 }) =
      ReconcileChoice.remoteWins ∧
    reconcileConflict opC3 none = ReconcileChoice.localWins :=
  ⟨((C3_reconcileConflict_lastWriteWins opC3
        (some { updatedAt := some 5 })).2.2 5 rfl).2 (by decide),
   (C3_reconcileConflict_lastWriteWins opC3 none).1 rfl⟩

/-- C7: when exactly one board exists, deleteBoard returns false and the
whole store — boards, tasks, offline queue and every other table — is
returned unchanged. -/
theorem C7_deleteBoard_sole_board (db : DB) (id : Nat)
    (h : db.boards.length = 1) :
    deleteBoard id db = (false, db) := by
  have hle : db.boards.length ≤ 1 := Nat.le_of_eq h
  simp [deleteBoard, hle]

/-- C7 witness: deleting board 1 from a store holding only board 1 returns
false and leaves the store intact. -/
theorem C7_deleteBoard_sole_board_witness :
    deleteBoard 1 oneBoardDB = (false, oneBoardDB) :=
  C7_deleteBoard_sole_board oneBoardDB 1 (by decide)

/-- C6 counterexample: after enqueueing an operation at wall-clock 5 and
then one at wall-clock 3, getReadyForSync(3) returns both entries in
primary-key order with timestamps [5, 3] — not non-decreasing timestamp
order, refuting the ordering half of the claim on this queue state. -/
theorem C6_counterexample :
    (getReadyForSync 3 dbC6).map OfflineOp.timestamp = [5, 3] ∧
    ¬ List.Pairwise (fun a b => a ≤ b)
        ((getReadyForSync 3 dbC6).map OfflineOp.timestamp) := by
  decide

/-- C6 amended: getReadyForSync(n) returns exactly the unsynced entries
with retryCount < n — membership is an exact characterisation — as a
subsequence of the queue in primary-key (insertion) order; whenever the
queue's timestamps are non-decreasing in that order (as with a monotone
wall clock) the result is in non-decreasing timestamp order, but no sort is
applied. -/
theorem C6_getReadyForSync_exact (n : Nat) (db : DB) :
    (∀ op, op ∈ getReadyForSync n db ↔
      op ∈ db.offlineOps ∧ op.synced = false ∧ op.retryCount < n) ∧
    (getReadyForSync n db).Sublist db.offlineOps ∧
    (List.Pairwise (fun a b => a.timestamp ≤ b.timestamp) db.offlineOps →
      List.Pairwise (fun a b => a.timestamp ≤ b.timestamp)
        (getReadyForSync n db)) := by
  refine ⟨?_, ?_, ?_⟩
  · intro op
    simp only [getReadyForSync, List.mem_filter, Bool.not_eq_true',
      decide_eq_true_eq, and_assoc]
  · exact (List.filter_sublist _).trans (List.filter_sublist _)
  · intro h
    exact List.Pairwise.sublist
      ((List.filter_sublist _).trans (List.filter_sublist _)) h

/-- C6 witness: on the queue enqueued with a monotone clock, the entries
ready for sync come back in non-decreasing timestamp order. -/
theorem C6_getReadyForSync_witness :
    List.Pairwise (fun a b : OfflineOp => a.timestamp ≤ b.timestamp)
      (getReadyForSync 3 dbC6w) :=
  (C6_getReadyForSync_exact 3 dbC6w).2.2 (by decide)

/-- Accumulator bound for the running maximum over sequentialIds. -/
theorem le_foldlMaxSeq (l : List Task) (acc : Nat) :
    acc ≤ l.foldl (fun a t0 => max a t0.data.sequentialId) acc := by
  induction l generalizing acc with
  | nil => exact Nat.le_refl acc
  | cons hd tl ih =>
    exact Nat.le_trans (Nat.le_max_left acc hd.data.sequentialId) (ih _)

/-- Every stored sequentialId is bounded by the running maximum. -/
theorem mem_le_foldlMaxSeq (l : List Task) (t : Task) (ht : t ∈ l) (acc : Nat) :
    t.data.sequentialId ≤ l.foldl (fun a t0 => max a t0.data.sequentialId) acc := by
  induction l generalizing acc with
  | nil => cases ht
  | cons hd tl ih =>
    rcases List.mem_cons.mp ht with rfl | hmem
    · exact Nat.le_trans (Nat.le_max_right acc t.data.sequentialId)
        (le_foldlMaxSeq tl _)
    · exact ih hmem _

/-- C1 counterexample: create two tasks (sequentialIds 1 and 2), delete the
task holding the maximum sequentialId, create again — the new task is
assigned sequentialId 2, equal to a sequentialId assigned earlier, so the
new id is not strictly greater than every previously assigned one. -/
theorem C1_counterexample :
    (createTask inputC1 20 "c1b" 20 dbC1a).1.data.sequentialId = 2 ∧
    (deleteTask 2 "c1c" 30 dbC1b).1 = true ∧
    (createTask inputC1 40 "c1d" 40 dbC1c).1.data.sequentialId = 2 := by
  decide

/-- C1 amended: the sequentialId assigned by createTask is strictly greater
than the sequentialId of every task currently in the store (it is the
current maximum plus one). Hence sequentialIds strictly increase and never
repeat across histories without deleteTask, but deleting the task holding
the maximum lets a previously assigned value be reused. -/
theorem C1_sequentialId_exceeds_current (db : DB) (input : TaskCreateInput)
    (now : Nat) (opId : String) (opTs : Nat) (t : Task) (ht : t ∈ db.tasks) :
    t.data.sequentialId < (createTask input now opId opTs db).1.data.sequentialId := by
  have h := mem_le_foldlMaxSeq db.tasks t ht 0
  exact Nat.lt_succ_of_le h

/-- C1 witness: in the two-task store both stored sequentialIds are below
the one the next createTask assigns. -/
theorem C1_sequentialId_witness :
    (createTask inputC1 20 "c1b" 20 dbC1a).1.data.sequentialId <
      (createTask inputC1 99 "w" 99 dbC1b).1.data.sequentialId :=
  C1_sequentialId_exceeds_current dbC1b inputC1 99 "w" 99
    (createTask inputC1 20 "c1b" 20 dbC1a).1 (by decide)

/-- C9: updating an existing task preserves its id, sequentialId and
createdAt (the update-input type has no such fields and the merge keeps
them), leaves boards, subtasks and attachments untouched, and keeps every
other task in the tasks table. -/
theorem C9_updateTask_frame (db : DB) (id : Nat) (u : TaskUpdateInput)
    (now : Nat) (opId : String) (opTs : Nat) (t t1 : Task) (db1 : DB)
    (h : getTask id db = some t)
    (hrun : updateTask id u now opId opTs db = (some t1, db1)) :
    t1.id = t.id ∧ t1.data.sequentialId = t.data.sequentialId ∧
    t1.data.createdAt = t.data.createdAt ∧
    db1.boards = db.boards ∧ db1.subtasks = db.subtasks ∧
    db1.attachments = db.attachments ∧
    (∀ t2 ∈ db.tasks, t2.id ≠ id → t2 ∈ db1.tasks) := by
  have hid : t.id = id := by
    have hp := List.find?_some h
    simpa using hp
  simp only [updateTask, h, Prod.mk.injEq, Option.some.injEq] at hrun
  obtain ⟨h1, h2⟩ := hrun
  subst h1
  subst h2
  refine ⟨rfl, ?_, ?_, rfl, rfl, rfl, ?_⟩
  · simp [applyTaskUpdates]
  · simp [applyTaskUpdates]
  · intro t2 ht2 hne
    simp only [queueOfflineOp, putTask]
    refine List.mem_map.mpr ⟨t2, ht2, ?_⟩
    rw [if_neg]
    simpa [hid] using hne

/-- C9 witness: updating the title of task 1 keeps createdAt and
sequentialId and leaves the subtasks table alone. -/
theorem C9_updateTask_frame_witness :
    tC9r.data.createdAt = taskC9.data.createdAt ∧
    dbC9r.subtasks = dbC9.subtasks :=
  ⟨(C9_updateTask_frame dbC9 1 updC9 50 "op9" 51 taskC9 tC9r dbC9r
      (by decide) (by decide)).2.2.1,
   (C9_updateTask_frame dbC9 1 updC9 50 "op9" 51 taskC9 tC9r dbC9r
      (by decide) (by decide)).2.2.2.2.1⟩

/-- C4: each successful task mutation appends exactly one queue entry —
createTask one create-op whose payload is the full stored record (every
field of the new task except the store-assigned id), updateTask one
update-op whose payload is exactly the delta passed in, deleteTask one
delete-op with null payload, toggleTaskComplete one update-op flipping
completed — all with entity task, synced false and retryCount 0. -/
theorem C4_task_mutations_enqueue_one :
    (∀ (input : TaskCreateInput) (now : Nat) (opId : String) (opTs : Nat) (db : DB),
      (createTask input now opId opTs db).2.offlineOps = db.offlineOps ++
        [{ id := db.nextOpPk, opId := opId, opType := OpType.create,
           entity := OpEntity.task, entityId := db.nextTaskId,
           payload := OpPayload.taskRecord
             { sequentialId := getNextSequentialId db, boardId := input.boardId,
               title := input.title, description := input.description,
               tags := input.tags, priority := input.priority,
               completed := input.completed, createdAt := now, updatedAt := now },
           timestamp := opTs, synced := false, retryCount := 0,
           lastError := none }]) ∧
    (∀ (id : Nat) (u : TaskUpdateInput) (now : Nat) (opId : String) (opTs : Nat)
        (db db1 : DB) (t1 : Task),
      updateTask id u now opId opTs db = (some t1, db1) →
      db1.offlineOps = db.offlineOps ++
        [{ id := db.nextOpPk, opId := opId, opType := OpType.update,
           entity := OpEntity.task, entityId := id,
           payload := OpPayload.taskDelta u, timestamp := opTs,
           synced := false, retryCount := 0, lastError := none }]) ∧
    (∀ (id : Nat) (opId : String) (opTs : Nat) (db db1 : DB),
      deleteTask id opId opTs db = (true, db1) →
      db1.offlineOps = db.offlineOps ++
        [{ id := db.nextOpPk, opId := opId, opType := OpType.delete,
           entity := OpEntity.task, entityId := id, payload := OpPayload.null,
           timestamp := opTs, synced := false, retryCount := 0,
           lastError := none }]) ∧
    (∀ (id : Nat) (now : Nat) (opId : String) (opTs : Nat) (db db1 : DB)
        (t t1 : Task),
      getTask id db = some t →
      toggleTaskComplete id now opId opTs db = (some t1, db1) →
      db1.offlineOps = db.offlineOps ++
        [{ id := db.nextOpPk, opId := opId, opType := OpType.update,
           entity := OpEntity.task, entityId := id,
           payload := OpPayload.taskDelta { completed := some (!t.data.completed) },
           timestamp := opTs, synced := false, retryCount := 0,
           lastError := none }]) := by
  have hupd : ∀ (id : Nat) (u : TaskUpdateInput) (now : Nat) (opId : String)
      (opTs : Nat) (db db1 : DB) (t1 : Task),
      updateTask id u now opId opTs db = (some t1, db1) →
      db1.offlineOps = db.offlineOps ++
        [{ id := db.nextOpPk, opId := opId, opType := OpType.update,
           entity := OpEntity.task, entityId := id,
           payload := OpPayload.taskDelta u, timestamp := opTs,
           synced := false, retryCount := 0, lastError := none }] := by
    intro id u now opId opTs db db1 t1 hrun
    cases hg : getTask id db with
    | none => simp [updateTask, hg] at hrun
    | some t0 =>
      simp only [updateTask, hg, Prod.mk.injEq, Option.some.injEq] at hrun
      obtain ⟨h1, h2⟩ := hrun
      subst h2
      rfl
  refine ⟨fun input now opId opTs db => rfl, hupd, ?_, ?_⟩
  · intro id opId opTs db db1 hrun
    cases hg : getTask id db with
    | none => simp [deleteTask, hg] at hrun
    | some t0 =>
      simp only [deleteTask, hg, Prod.mk.injEq] at hrun
      obtain ⟨h1, h2⟩ := hrun
      subst h2
      rfl
  · intro id now opId opTs db db1 t t1 hg hrun
    simp only [toggleTaskComplete, hg] at hrun
    exact hupd id { completed := some (!t.data.completed) } now opId opTs
      db db1 t1 hrun

/-- C4 witness: on a one-task store, deleteTask and toggleTaskComplete each
append exactly the described entry. -/
theorem C4_task_mutations_witness :
    (deleteTask 1 "d4" 9 dbC4).2.offlineOps = dbC4.offlineOps ++
      [{ id := dbC4.nextOpPk, opId := "d4", opType := OpType.delete,
         entity := OpEntity.task, entityId := 1, payload := OpPayload.null,
         timestamp := 9, synced := false, retryCount := 0,
         lastError := none }] ∧
    (toggleTaskComplete 1 50 "t4" 51 dbC4).2.offlineOps = dbC4.offlineOps ++
      [{ id := dbC4.nextOpPk, opId := "t4", opType := OpType.update,
         entity := OpEntity.task, entityId := 1,
         payload := OpPayload.taskDelta { completed := some true },
         timestamp := 51, synced := false, retryCount := 0,
         lastError := none }] :=
  ⟨C4_task_mutations_enqueue_one.2.2.1 1 "d4" 9 dbC4
      (deleteTask 1 "d4" 9 dbC4).2 (by decide),
   C4_task_mutations_enqueue_one.2.2.2 1 50 "t4" 51 dbC4
      (toggleTaskComplete 1 50 "t4" 51 dbC4).2 taskC4
      { id := 1, data := { taskC4.data with completed := true, updatedAt := 50 } }
      (by decide) (by decide)⟩

/-- C2 counterexample: a store holds task 1 and a subtask of task 1;
deleteTask 1 succeeds but the subtask survives and is still readable
afterwards, refuting the claim that deleteTask deletes all subtasks of the
task. -/
theorem C2_counterexample :
    (deleteTask 1 "x2" 99 dbC2).1 = true ∧
    getSubtasksByTaskId 1 (deleteTask 1 "x2" 99 dbC2).2 = [subC2] := by
  decide

/-- C2 amended: for a present task id, deleteTask deletes all attachments
with that taskId, then the task, then appends exactly one
OfflineOp(delete, task, id, null); afterwards no attachment of the task and
not the task itself is readable, but subtasks are left untouched (boards
too). -/
theorem C2_deleteTask_cascade (db : DB) (id : Nat) (opId : String)
    (opTs : Nat) (t : Task) (h : getTask id db = some t) :
    (deleteTask id opId opTs db).1 = true ∧
    getTaskAttachments id (deleteTask id opId opTs db).2 = [] ∧
    getTask id (deleteTask id opId opTs db).2 = none ∧
    (deleteTask id opId opTs db).2.subtasks = db.subtasks ∧
    (deleteTask id opId opTs db).2.boards = db.boards ∧
    (deleteTask id opId opTs db).2.offlineOps = db.offlineOps ++
      [{ id := db.nextOpPk, opId := opId, opType := OpType.delete,
         entity := OpEntity.task, entityId := id, payload := OpPayload.null,
         timestamp := opTs, synced := false, retryCount := 0,
         lastError := none }] := by
  simp only [deleteTask, h]
  refine ⟨trivial, ?_, ?_, rfl, rfl, rfl⟩
  · simp only [getTaskAttachments, queueOfflineOp]
    rw [List.filter_eq_nil_iff]
    intro a ha
    have hne := (List.mem_filter.mp ha).2
    simp only [ne_eq, decide_not, Bool.not_eq_eq_eq_not, Bool.not_true,
      decide_eq_false_iff_not] at hne
    simpa using hne
  · simp only [getTask, queueOfflineOp]
    rw [List.find?_eq_none]
    intro x hx
    have hne := (List.mem_filter.mp hx).2
    simp only [ne_eq, decide_not, Bool.not_eq_eq_eq_not, Bool.not_true,
      decide_eq_false_iff_not] at hne
    simpa using hne

/-- C2 witness: deleting task 1 empties its attachments while leaving the
subtasks table exactly as it was. -/
theorem C2_deleteTask_cascade_witness :
    getTaskAttachments 1 (deleteTask 1 "w2" 77 dbC2).2 = [] ∧
    (deleteTask 1 "w2" 77 dbC2).2.subtasks = dbC2.subtasks :=
  ⟨(C2_deleteTask_cascade dbC2 1 "w2" 77 taskC2 (by decide)).2.1,
   (C2_deleteTask_cascade dbC2 1 "w2" 77 taskC2 (by decide)).2.2.2.1⟩

/-- C5 counterexample: createLinkAttachment persists the attachment but
appends no offline-queue entry at all, refuting the claim that every
attachment mutation enqueues exactly one OfflineOp. -/
theorem C5_counterexample :
    (createLinkAttachment 3 "https://example.com" none 10 DB.empty).2.offlineOps
      = DB.empty.offlineOps ∧
    (createLinkAttachment 3 "https://example.com" none 10
      DB.empty).2.attachments.length = 1 := by
  decide

/-- C5 amended: createAttachment (on success) and deleteAttachment (on a
present id) each append exactly one queue entry with matching opType and
entity attachment; createLinkAttachment appends none. -/
theorem C5_attachment_mutations :
    (∀ (taskId : Nat) (file : FileInfo) (compress : Bool)
        (compressedSize thumbSize now : Nat) (opId : String) (db db1 : DB)
        (att : Attachment),
      createAttachment taskId file compress compressedSize thumbSize now opId db
        = Except.ok (att, db1) →
      db1.offlineOps = db.offlineOps ++
        [{ id := db.nextOpPk, opId := opId, opType := OpType.create,
           entity := OpEntity.attachment, entityId := att.id,
           payload := OpPayload.attachmentInfo taskId file.name att.type att.size,
           timestamp := now, synced := false, retryCount := 0,
           lastError := none }]) ∧
    (∀ (id : Nat) (opId : String) (ts : Nat) (db db1 : DB),
      deleteAttachment id opId ts db = (true, db1) →
      db1.offlineOps = db.offlineOps ++
        [{ id := db.nextOpPk, opId := opId, opType := OpType.delete,
           entity := OpEntity.attachment, entityId := id,
           payload := OpPayload.null, timestamp := ts, synced := false,
           retryCount := 0, lastError := none }]) ∧
    (∀ (taskId : Nat) (url : String) (metadata : Option AttachmentMetadata)
        (now : Nat) (db : DB),
      (createLinkAttachment taskId url metadata now db).2.offlineOps =
        db.offlineOps) := by
  refine ⟨?_, ?_, fun taskId url metadata now db => rfl⟩
  · intro taskId file compress compressedSize thumbSize now opId db db1 att hrun
    cases hg : getAttachmentType file.mimeType with
    | none => simp [createAttachment, hg] at hrun
    | some ty =>
      simp only [createAttachment, hg, Except.ok.injEq, Prod.mk.injEq] at hrun
      obtain ⟨h1, h2⟩ := hrun
      subst h2
      subst h1
      rfl
  · intro id opId ts db db1 hrun
    cases hg : db.attachments.find? (fun a => a.id = id) with
    | none => simp [deleteAttachment, hg] at hrun
    | some a0 =>
      simp only [deleteAttachment, hg, Prod.mk.injEq] at hrun
      obtain ⟨h1, h2⟩ := hrun
      subst h2
      rfl

/-- C5 witness: a successful createAttachment from the empty store appends
exactly the create entry for the stored attachment. -/
theorem C5_attachment_mutations_witness :
    dbC5r.offlineOps = DB.empty.offlineOps ++ [opC5] :=
  C5_attachment_mutations.1 1 fileC5 false 0 0 7 "op5" DB.empty dbC5r
    attC5 (by rfl)

/-- C8 counterexample: a 100 MiB JPEG fails validateFile at the default
ceiling, yet createAttachment persists it successfully — createAttachment
performs no size check — and an unsupported MIME type makes
createAttachment throw (Except.error), not return a structured result. -/
theorem C8_counterexample :
    (validateFile fileBigC8 DEFAULT_MAX_FILE_SIZE).valid = false ∧
    (createAttachment 1 fileBigC8 false 0 0 5 "op8" DB.empty).isOk = true ∧
    createAttachment 1 fileBadC8 false 0 0 5 "op8" DB.empty =
      Except.error "Unsupported file type" :=
  ⟨by decide, by decide, by rfl⟩

/-- C8 amended: validateFile checks the size against the configurable
ceiling and the MIME type against the allow-list, returning a structured
result with a human-readable reason in both failure cases and never
throwing; createAttachment itself checks only the MIME type — an
unsupported type is thrown as an exception, and a file of an allowed type
is persisted whatever its size. -/
theorem C8_validation_behaviour :
    (∀ (file : FileInfo) (maxSize : Nat), file.size > maxSize →
      validateFile file maxSize =
        { valid := false,
          error := some ("File size exceeds maximum allowed (" ++
            toString (roundToMegabytes maxSize) ++ "MB)") }) ∧
    (∀ (file : FileInfo) (maxSize : Nat), file.size ≤ maxSize →
      getAttachmentType file.mimeType = none →
      validateFile file maxSize =
        { valid := false, error := some "File type not supported" }) ∧
    (∀ (file : FileInfo) (maxSize : Nat) (ty : AttachmentType),
      file.size ≤ maxSize → getAttachmentType file.mimeType = some ty →
      validateFile file maxSize = { valid := true, error := none }) ∧
    (∀ (taskId : Nat) (file : FileInfo) (compress : Bool)
        (compressedSize thumbSize now : Nat) (opId : String) (db : DB),
      getAttachmentType file.mimeType = none →
      createAttachment taskId file compress compressedSize thumbSize now opId db
        = Except.error "Unsupported file type") ∧
    (∀ (taskId : Nat) (file : FileInfo) (compress : Bool)
        (compressedSize thumbSize now : Nat) (opId : String) (db : DB)
        (ty : AttachmentType),
      getAttachmentType file.mimeType = some ty →
      (createAttachment taskId file compress compressedSize thumbSize now opId
        db).isOk = true) := by
  refine ⟨?_, ?_, ?_, ?_, ?_⟩
  · intro file maxSize h
    simp [validateFile, h]
  · intro file maxSize hle hg
    simp [validateFile, Nat.not_lt.mpr hle, hg]
  · intro file maxSize ty hle hg
    simp [validateFile, Nat.not_lt.mpr hle, hg]
  · intro taskId file compress compressedSize thumbSize now opId db hg
    simp [createAttachment, hg]
  · intro taskId file compress compressedSize thumbSize now opId db ty hg
    simp only [createAttachment, hg]
    rfl

/-- C8 witness: the unsupported small file gets the structured
not-supported result from validateFile and the thrown error from
createAttachment; the oversized JPEG gets the structured size result. -/
theorem C8_validation_behaviour_witness :
    validateFile fileBadC8 DEFAULT_MAX_FILE_SIZE =
      { valid := false, error := some "File type not supported" } ∧
    createAttachment 1 fileBadC8 false 0 0 5 "w8" DB.empty =
      Except.error "Unsupported file type" ∧
    validateFile fileBigC8 DEFAULT_MAX_FILE_SIZE =
      { valid := false,
        error := some ("File size exceeds maximum allowed (" ++
          toString (roundToMegabytes DEFAULT_MAX_FILE_SIZE) ++ "MB)") } :=
  ⟨C8_validation_behaviour.2.1 fileBadC8 DEFAULT_MAX_FILE_SIZE
      (by decide) (by decide),
   C8_validation_behaviour.2.2.2.1 1 fileBadC8 false 0 0 5 "w8" DB.empty
      (by decide),
   C8_validation_behaviour.1 fileBigC8 DEFAULT_MAX_FILE_SIZE (by decide)⟩

end BitTask
